import Mathlib

/-!
Verification of `src/kapidox/data/htmlresource/frameworks.js`.

The script is a client-side UI behavior file: it toggles the maintainer
column, filters framework table rows by platform-checkbox state, and drives
a note tooltip.  We shallowly embed the DOM state the script reads and
writes as Lean records, and each JS function as a state transformer.
-/

namespace Frameworks

/-- A `.platform-checkbox` element: its checked state and its
`data-platform` attribute. -/
structure PlatformCheckbox where
  checked : Bool
  dataPlatform : String
deriving Repr, DecidableEq

/-- A `.framework-row` element: its `data-platforms` attribute (a
comma-separated tag string) and whether it currently carries the
`available` / `not-available` CSS classes. -/
structure FrameworkRow where
  dataPlatforms : String
  available : Bool
  notAvailable : Bool
deriving Repr, DecidableEq

/-- A `.framework-platform` cell: the tag of its per-platform subclass
`framework-platform-<tag>` and whether it currently carries the
`framework-platform-required` class. -/
structure PlatformCell where
  tag : String
  required : Bool
deriving Repr, DecidableEq

/-- The DOM state read and written by the script: the two controlling
checkboxes, the visibility of the maintainer column and of the
`#platform-filter-group` panel, and the lists of platform checkboxes,
framework rows and platform cells in DOM order. -/
structure PageState where
  showMaintainersChecked : Bool
  maintainerColumnVisible : Bool
  platformFilterChecked : Bool
  filterGroupVisible : Bool
  platformCheckboxes : List PlatformCheckbox
  rows : List FrameworkRow
  cells : List PlatformCell
deriving Repr, DecidableEq

/-- JS `updateMaintainers`: show the `.framework-maintainer-column`
elements when the `#showMaintainers` checkbox is checked, hide them
otherwise. -/
def updateMaintainers (s : PageState) : PageState :=
  if s.showMaintainersChecked then
    { s with maintainerColumnVisible := true }
  else
    { s with maintainerColumnVisible := false }

/-- Embedding of JS `String.prototype.split(",")` on the character list of
the string: cut at every comma, keeping empty pieces, so that the empty
string splits to `[""]` exactly as in JS. -/
def splitCommaAux : List Char → List Char → List (List Char)
  | [], acc => [acc.reverse]
  | c :: rest, acc =>
      if c = ',' then acc.reverse :: splitCommaAux rest []
      else splitCommaAux rest (c :: acc)

/-- JS `str.split(",")`. -/
def splitComma (s : String) : List String :=
  (splitCommaAux s.data []).map (fun cs => String.mk cs)

/-- The `platformCheckboxes.each` loop of `updatePlatforms`: collect, in DOM
order, the `data-platform` attribute of every checked platform checkbox. -/
def collectWantedPlatforms : List PlatformCheckbox → List String
  | [] => []
  | cb :: rest =>
      if cb.checked then cb.dataPlatform :: collectWantedPlatforms rest
      else collectWantedPlatforms rest

/-- One iteration of the `for` loop of `updatePlatforms`:
`$(".framework-platform-" + platform).addClass("framework-platform-required")`,
i.e. set `required` on every cell whose per-platform subclass tag equals
`platform`. -/
def addRequired (cells : List PlatformCell) (platform : String) : List PlatformCell :=
  cells.map (fun c => if c.tag == platform then { c with required := true } else c)

/-- JS `updatePlatforms`: clear `framework-platform-required` from every
cell; if the `#platform-filter` checkbox is unchecked, hide the filter
panel, clear `available` / `not-available` from every row and return;
otherwise show the panel, collect the wanted platforms, mark the wanted
cells required, and mark each row `available` when every wanted platform
occurs in its `data-platforms` split (JS `Array.prototype.every` with
`indexOf != -1`), `not-available` otherwise. -/
def updatePlatforms (s : PageState) : PageState :=
  let doFilter := s.platformFilterChecked
  let s1 : PageState := { s with cells := s.cells.map (fun c => { c with required := false }) }
  if doFilter then
    let s2 : PageState := { s1 with filterGroupVisible := true }
    let wantedPlatforms := collectWantedPlatforms s2.platformCheckboxes
    let s3 : PageState := { s2 with cells := wantedPlatforms.foldl addRequired s2.cells }
    { s3 with
      rows := s3.rows.map (fun tr =>
        let fwPlatforms := splitComma tr.dataPlatforms
        let showRow := wantedPlatforms.all (fun platform => fwPlatforms.contains platform)
        if showRow then
          { tr with notAvailable := false, available := true }
        else
          { tr with available := false, notAvailable := true }) }
  else
    { s1 with
      filterGroupVisible := false,
      rows := s1.rows.map (fun tr => { tr with notAvailable := false, available := false }) }

/-- The DOM click event on the `#showMaintainers` checkbox: the browser
toggles the checked state, then the attached handler `updateMaintainers`
runs. -/
def clickShowMaintainers (s : PageState) : PageState :=
  updateMaintainers { s with showMaintainersChecked := !s.showMaintainersChecked }

/-- State of the note tooltip machinery of `initNoteTip`:
`g_currentlyDescribedElement` (elements are identified by their index among
the `.framework-platform > a` elements), the tooltip's visibility, its
current text and the element it is anchored to. -/
structure TipState where
  current : Option Nat
  tipVisible : Bool
  tipText : String
  tipAnchor : Option Nat
deriving Repr, DecidableEq

/-- State after `initNoteTip` constructs the `NoteTip` and installs the
`onHide` callback: nothing is described yet and the tooltip is hidden. -/
def tipInit : TipState :=
  { current := none, tipVisible := false, tipText := "", tipAnchor := none }

/-- Modelled from the spec: the external `NoteTip` widget (its source is not
under `src/`; the spec describes construction, `setText`, `show`, `hide`
and the `onHide` callback).  `g_noteTip.hide()` hides the tooltip and fires
`onHide`, which `initNoteTip` sets to clear
`g_currentlyDescribedElement`. -/
def noteTipHide (s : TipState) : TipState :=
  { s with tipVisible := false, current := none }

/-- The click handler `initNoteTip` attaches to every
`.framework-platform > a` element: if the clicked element is the currently
described one, hide the tooltip (clearing `current` through `onHide`);
otherwise record the element as currently described, read its `data-note`
attribute (`note e`), set it as the tooltip text and show the tooltip
anchored to the element. -/
def clickNote (note : Nat → String) (e : Nat) (s : TipState) : TipState :=
  if s.current = some e then
    noteTipHide s
  else
    let s1 : TipState := { s with current := some e }
    let s2 : TipState := { s1 with tipText := note e }
    { s2 with tipVisible := true, tipAnchor := some e }

/-- Events driving the tooltip state machine: a click on a note-bearing
element, or an externally-triggered hide of the tooltip (which fires the
`onHide` callback). -/
inductive TipEvent where
  | click (e : Nat)
  | extHide
deriving Repr, DecidableEq

/-- One step of the tooltip state machine. -/
def tipStep (note : Nat → String) (s : TipState) : TipEvent → TipState
  | TipEvent.click e => clickNote note e s
  | TipEvent.extHide => noteTipHide s

/-- Run the tooltip state machine from its post-`initNoteTip` state over a
sequence of events. -/
def runTip (note : Nat → String) (evs : List TipEvent) : TipState :=
  evs.foldl (tipStep note) tipInit

/-- JS `main`: attach the handlers, initialise the note tooltip, and run
`updateMaintainers` once to synchronise the maintainer column with the
checkbox's initial state.  No initial call to `updatePlatforms` is made. -/
def main (s : PageState) : PageState × TipState :=
  (updateMaintainers s, tipInit)

end Frameworks

/-! ### Helper lemmas -/

namespace Frameworks

/-- If no platform checkbox is checked, the collected wanted-platform list is
empty. -/
lemma collectWantedPlatforms_eq_nil {l : List PlatformCheckbox}
    (h : ∀ cb ∈ l, cb.checked = false) : collectWantedPlatforms l = [] := by
  induction l with
  | nil => rfl
  | cons cb rest ih =>
      have hcb := h cb (List.mem_cons_self cb rest)
      simp only [collectWantedPlatforms, hcb, if_neg]
      exact ih (fun c hc => h c (List.mem_cons_of_mem cb hc))

/-- Folding the per-platform `addClass` loop over the wanted list sets
`required` on exactly the cells whose tag occurs in the wanted list. -/
lemma foldl_addRequired (wanted : List String) (cells : List PlatformCell) :
    wanted.foldl addRequired cells =
      cells.map (fun c =>
        if wanted.contains c.tag then { c with required := true } else c) := by
  induction wanted generalizing cells with
  | nil => simp
  | cons w ws ih =>
      rw [List.foldl_cons, ih, addRequired, List.map_map]
      refine List.map_congr_left ?_
      intro c _
      by_cases hw : c.tag == w
      · have he : c.tag = w := by simpa using hw
        simp [Function.comp, hw, he]
      · have he : ¬c.tag = w := by simpa using hw
        simp [Function.comp, hw, he]

/-- With the filter enabled, `updatePlatforms` maps each row to its marked
version: `available` exactly when every wanted platform occurs in the row's
comma-split `data-platforms` attribute. -/
lemma updatePlatforms_rows_eq (s : PageState) (h : s.platformFilterChecked = true) :
    (updatePlatforms s).rows = s.rows.map (fun tr =>
      if (collectWantedPlatforms s.platformCheckboxes).all
          (fun platform => (splitComma tr.dataPlatforms).contains platform) then
        { tr with notAvailable := false, available := true }
      else
        { tr with available := false, notAvailable := true }) := by
  simp [updatePlatforms, h]

/-- `updatePlatforms` preserves the number of rows. -/
lemma updatePlatforms_rows_length (s : PageState) :
    (updatePlatforms s).rows.length = s.rows.length := by
  by_cases h : s.platformFilterChecked <;> simp [updatePlatforms, h]

/-- The Boolean subset test of `updatePlatforms` agrees with the
set-theoretic subset statement. -/
lemma all_contains_iff (wanted fw : List String) :
    (wanted.all (fun platform => fw.contains platform) = true) ↔
      ∀ p ∈ wanted, p ∈ fw := by
  simp [List.all_eq_true]

end Frameworks

/-! ### Example page states used by the witnesses -/

namespace Frameworks

/-- A page with the filter enabled, two of three platform checkboxes
checked, and one row carrying all three tags. -/
def exC1 : PageState :=
  { showMaintainersChecked := false, maintainerColumnVisible := false,
    platformFilterChecked := true, filterGroupVisible := false,
    platformCheckboxes :=
      [{ checked := true, dataPlatform := "linux" },
       { checked := false, dataPlatform := "windows" },
       { checked := true, dataPlatform := "mac" }],
    rows := [{ dataPlatforms := "linux,mac,windows",
               available := false, notAvailable := false }],
    cells := [{ tag := "linux", required := false }] }

/-- A page with the filter enabled and no platform checkbox checked. -/
def exC2 : PageState :=
  { showMaintainersChecked := false, maintainerColumnVisible := false,
    platformFilterChecked := true, filterGroupVisible := false,
    platformCheckboxes := [{ checked := false, dataPlatform := "linux" }],
    rows := [{ dataPlatforms := "x", available := false, notAvailable := true }],
    cells := [] }

/-- A page with the filter disabled and a row still carrying stale marks. -/
def exC3 : PageState :=
  { showMaintainersChecked := false, maintainerColumnVisible := false,
    platformFilterChecked := false, filterGroupVisible := true,
    platformCheckboxes := [{ checked := true, dataPlatform := "linux" }],
    rows := [{ dataPlatforms := "linux", available := true, notAvailable := true }],
    cells := [{ tag := "linux", required := true }] }

/-- C1: with the platform filter enabled, `updatePlatforms` marks a row
`available` iff every wanted platform tag (the `data-platform` of each
checked platform checkbox) occurs in the row's comma-split `data-platforms`
attribute, and `not-available` otherwise. -/
theorem updatePlatforms_available_iff_subset (s : PageState)
    (h : s.platformFilterChecked = true) (i : Nat)
    (hi : i < s.rows.length) (hj : i < (updatePlatforms s).rows.length) :
    (((updatePlatforms s).rows.get ⟨i, hj⟩).available = true ↔
      ∀ p ∈ collectWantedPlatforms s.platformCheckboxes,
        p ∈ splitComma (s.rows.get ⟨i, hi⟩).dataPlatforms) ∧
    ((updatePlatforms s).rows.get ⟨i, hj⟩).notAvailable
      = !((updatePlatforms s).rows.get ⟨i, hj⟩).available := by
  have hr := updatePlatforms_rows_eq s h
  simp only [List.get_eq_getElem, hr, List.getElem_map]
  split
  case isTrue hall =>
    exact ⟨iff_of_true rfl ((all_contains_iff _ _).mp hall), rfl⟩
  case isFalse hall =>
    refine ⟨?_, rfl⟩
    have hnot : ¬ ∀ p ∈ collectWantedPlatforms s.platformCheckboxes,
        p ∈ splitComma (s.rows[i]).dataPlatforms :=
      fun hf => hall ((all_contains_iff _ _).mpr hf)
    simp [hnot]

/-- Witness for C1 at a concrete page state. -/
theorem updatePlatforms_available_iff_subset_witness :
    (((updatePlatforms exC1).rows.get ⟨0, by decide⟩).available = true ↔
      ∀ p ∈ collectWantedPlatforms exC1.platformCheckboxes,
        p ∈ splitComma (exC1.rows.get ⟨0, by decide⟩).dataPlatforms) ∧
    ((updatePlatforms exC1).rows.get ⟨0, by decide⟩).notAvailable
      = !((updatePlatforms exC1).rows.get ⟨0, by decide⟩).available :=
  updatePlatforms_available_iff_subset exC1 rfl 0 (by decide) (by decide)

/-- C2: with the filter enabled and no platform checkbox checked, every row
is marked `available`, whatever its `data-platforms` attribute. -/
theorem updatePlatforms_no_checkbox_all_available (s : PageState)
    (h : s.platformFilterChecked = true)
    (hnone : ∀ cb ∈ s.platformCheckboxes, cb.checked = false) :
    ∀ r ∈ (updatePlatforms s).rows, r.available = true ∧ r.notAvailable = false := by
  have hw := collectWantedPlatforms_eq_nil hnone
  rw [updatePlatforms_rows_eq s h]
  intro r hr
  obtain ⟨tr, -, rfl⟩ := List.mem_map.mp hr
  simp [hw]

/-- Witness for C2 at a concrete page state. -/
theorem updatePlatforms_no_checkbox_all_available_witness :
    ({ dataPlatforms := "x", available := true, notAvailable := false } :
        FrameworkRow).available = true ∧
    ({ dataPlatforms := "x", available := true, notAvailable := false } :
        FrameworkRow).notAvailable = false :=
  updatePlatforms_no_checkbox_all_available exC2 rfl (by decide) _ (by decide)

/-- C3: with the filter checkbox unchecked, `updatePlatforms` hides the
filter-options panel and clears both the `available` and the
`not-available` class from every row, leaving the attributes untouched and
independently of any platform membership. -/
theorem updatePlatforms_disabled_clears (s : PageState)
    (h : s.platformFilterChecked = false) :
    (updatePlatforms s).filterGroupVisible = false ∧
    (updatePlatforms s).rows = s.rows.map (fun tr =>
      { tr with available := false, notAvailable := false }) := by
  refine ⟨?_, ?_⟩ <;> simp [updatePlatforms, h]

/-- Witness for C3 at a concrete page state with stale marks. -/
theorem updatePlatforms_disabled_clears_witness :
    (updatePlatforms exC3).filterGroupVisible = false ∧
    (updatePlatforms exC3).rows = exC3.rows.map (fun tr =>
      { tr with available := false, notAvailable := false }) :=
  updatePlatforms_disabled_clears exC3 rfl

/-- C4: after any run of `updatePlatforms` — and hence after any sequence
of runs, since the input state is arbitrary — no row carries both the
`available` and the `not-available` class. -/
theorem updatePlatforms_marks_exclusive (s : PageState) :
    ((updatePlatforms s).rows.all (fun r => !(r.available && r.notAvailable))) = true := by
  by_cases h : s.platformFilterChecked
  · rw [updatePlatforms_rows_eq s h]
    simp only [List.all_eq_true, List.mem_map]
    rintro r ⟨tr, -, rfl⟩
    split <;> simp
  · simp [updatePlatforms, h, List.all_eq_true]

end Frameworks

/-! ### Note tooltip and remaining claims -/

namespace Frameworks

/-- Every state reached by one step of the tooltip machine satisfies the
consistency invariant, whatever the pre-state was. -/
lemma tipStep_inv (note : Nat → String) (s : TipState) (ev : TipEvent) :
    ((tipStep note s ev).current.isSome ↔ (tipStep note s ev).tipVisible = true) ∧
    ((tipStep note s ev).tipVisible = true →
      (tipStep note s ev).tipAnchor = (tipStep note s ev).current) := by
  cases ev with
  | click e =>
      by_cases h : s.current = some e <;> simp [tipStep, clickNote, noteTipHide, h]
  | extHide => simp [tipStep, noteTipHide]

/-- C5: in every reachable state of the note-tooltip machine (any sequence
of note-link clicks and external hide events from the post-`initNoteTip`
state), `g_currentlyDescribedElement` is non-null iff the tooltip is shown,
and when shown the tooltip is anchored to exactly that element. -/
theorem noteTip_invariant (note : Nat → String) (evs : List TipEvent) :
    ((runTip note evs).current.isSome ↔ (runTip note evs).tipVisible = true) ∧
    ((runTip note evs).tipVisible = true →
      (runTip note evs).tipAnchor = (runTip note evs).current) := by
  induction evs using List.reverseRecOn with
  | nil => simp [runTip, tipInit]
  | append_singleton ys ev ih =>
      have hstep : runTip note (ys ++ [ev]) = tipStep note (runTip note ys) ev := by
        simp [runTip, List.foldl_append]
      rw [hstep]
      exact tipStep_inv note (runTip note ys) ev

/-- Witness for C5 on a concrete event sequence. -/
theorem noteTip_invariant_witness :
    ((runTip (fun _ => "note") [TipEvent.click 0]).current.isSome ↔
      (runTip (fun _ => "note") [TipEvent.click 0]).tipVisible = true) ∧
    ((runTip (fun _ => "note") [TipEvent.click 0]).tipVisible = true →
      (runTip (fun _ => "note") [TipEvent.click 0]).tipAnchor
        = (runTip (fun _ => "note") [TipEvent.click 0]).current) :=
  noteTip_invariant (fun _ => "note") [TipEvent.click 0]

/-- A tooltip state currently showing element `0`. -/
def exTip : TipState :=
  { current := some 0, tipVisible := true, tipText := "n", tipAnchor := some 0 }

/-- C6: clicking the currently described element hides the tooltip and, via
the `onHide` callback, clears `g_currentlyDescribedElement`. -/
theorem clickNote_same_hides (note : Nat → String) (e : Nat) (s : TipState)
    (h : s.current = some e) :
    (clickNote note e s).tipVisible = false ∧ (clickNote note e s).current = none := by
  simp [clickNote, h, noteTipHide]

/-- Witness for C6: re-clicking element `0` while it is described. -/
theorem clickNote_same_hides_witness :
    (clickNote (fun _ => "n") 0 exTip).tipVisible = false ∧
    (clickNote (fun _ => "n") 0 exTip).current = none :=
  clickNote_same_hides (fun _ => "n") 0 exTip rfl

/-- C7: clicking an element that is not the currently described one (the
machine is Hidden or shows another element) sets the tooltip text to that
element's `data-note`, shows the tooltip anchored to it, and makes it the
currently described element; the previous element is no longer tracked. -/
theorem clickNote_other_shows (note : Nat → String) (e : Nat) (s : TipState)
    (h : s.current ≠ some e) :
    clickNote note e s =
      { current := some e, tipVisible := true,
        tipText := note e, tipAnchor := some e } := by
  simp [clickNote, h]

/-- Witness for C7: clicking element `1` while element `0` is described. -/
theorem clickNote_other_shows_witness :
    clickNote (fun _ => "note1") 1 exTip =
      { current := some 1, tipVisible := true,
        tipText := "note1", tipAnchor := some 1 } :=
  clickNote_other_shows (fun _ => "note1") 1 exTip (by decide)

/-- C8: the maintainer column is visible iff the `#showMaintainers`
checkbox is checked, immediately after `main`'s initial synchronisation and
after every click of the checkbox. -/
theorem maintainers_visible_iff_checked (s : PageState) :
    (main s).1.maintainerColumnVisible = s.showMaintainersChecked ∧
    (main s).1.showMaintainersChecked = s.showMaintainersChecked ∧
    (clickShowMaintainers s).maintainerColumnVisible
      = (clickShowMaintainers s).showMaintainersChecked := by
  refine ⟨?_, ?_, ?_⟩ <;>
    by_cases h : s.showMaintainersChecked <;>
      simp [main, updateMaintainers, clickShowMaintainers, h]

/-- Witness for C8 at a concrete page state. -/
theorem maintainers_visible_iff_checked_witness :
    (main exC1).1.maintainerColumnVisible = exC1.showMaintainersChecked ∧
    (main exC1).1.showMaintainersChecked = exC1.showMaintainersChecked ∧
    (clickShowMaintainers exC1).maintainerColumnVisible
      = (clickShowMaintainers exC1).showMaintainersChecked :=
  maintainers_visible_iff_checked exC1

end Frameworks

namespace Frameworks

/-- A page with the filter enabled, one checkbox checked for `linux`, and
one row whose `data-platforms` attribute is the empty string. -/
def exC9 : PageState :=
  { showMaintainersChecked := false, maintainerColumnVisible := false,
    platformFilterChecked := true, filterGroupVisible := false,
    platformCheckboxes := [{ checked := true, dataPlatform := "linux" }],
    rows := [{ dataPlatforms := "", available := false, notAvailable := false }],
    cells := [] }

/-- C9: a row whose `data-platforms` attribute is the empty string parses
to the one-element set containing the empty string, so with the filter
enabled it is marked `not-available` whenever some wanted tag other than
the empty string is checked, and `available` when no platform checkbox is
checked. -/
theorem updatePlatforms_empty_attribute (s : PageState) (i : Nat)
    (h : s.platformFilterChecked = true)
    (hi : i < s.rows.length) (hj : i < (updatePlatforms s).rows.length)
    (hempty : (s.rows.get ⟨i, hi⟩).dataPlatforms = "") :
    splitComma (s.rows.get ⟨i, hi⟩).dataPlatforms = [""] ∧
    ((∃ p ∈ collectWantedPlatforms s.platformCheckboxes, p ≠ "") →
      ((updatePlatforms s).rows.get ⟨i, hj⟩).notAvailable = true ∧
      ((updatePlatforms s).rows.get ⟨i, hj⟩).available = false) ∧
    (collectWantedPlatforms s.platformCheckboxes = [] →
      ((updatePlatforms s).rows.get ⟨i, hj⟩).available = true) := by
  have hr := updatePlatforms_rows_eq s h
  have hempty2 : (s.rows[i]).dataPlatforms = "" := by
    simpa using hempty
  refine ⟨by rw [hempty]; rfl, ?_, ?_⟩
  · rintro ⟨p, hp, hpne⟩
    simp only [List.get_eq_getElem, hr, List.getElem_map]
    have hforall : ¬ ∀ x ∈ collectWantedPlatforms s.platformCheckboxes,
        x ∈ splitComma (s.rows[i]).dataPlatforms := by
      intro hf
      have hmem := hf p hp
      rw [hempty2, show splitComma "" = [""] from rfl] at hmem
      exact hpne (by simpa using hmem)
    simp [hforall]
  · intro hwanted
    simp only [List.get_eq_getElem, hr, List.getElem_map, hwanted]
    simp

/-- Witness for C9: the empty-attribute row is marked `not-available` when
`linux` is the wanted platform. -/
theorem updatePlatforms_empty_attribute_witness :
    ((updatePlatforms exC9).rows.get ⟨0, by decide⟩).notAvailable = true ∧
    ((updatePlatforms exC9).rows.get ⟨0, by decide⟩).available = false :=
  (updatePlatforms_empty_attribute exC9 0 rfl (by decide) (by decide) rfl).2.1
    ⟨"linux", by decide, by decide⟩

/-- C10: after any run of `updatePlatforms`, a `.framework-platform` cell
carries `framework-platform-required` iff the filter is enabled and the
cell's tag is wanted; in particular a run with the filter disabled clears
the class from every cell. -/
theorem updatePlatforms_required_iff (s : PageState) :
    (updatePlatforms s).cells = s.cells.map (fun c =>
      { c with required := s.platformFilterChecked &&
          (collectWantedPlatforms s.platformCheckboxes).contains c.tag }) := by
  by_cases h : s.platformFilterChecked
  · simp only [updatePlatforms, h]
    rw [foldl_addRequired, List.map_map]
    refine List.map_congr_left ?_
    intro c _
    by_cases hc : c.tag ∈ collectWantedPlatforms s.platformCheckboxes <;>
      simp [hc]
  · simp [updatePlatforms, h]

/-- Witness for C10 at a concrete page state. -/
theorem updatePlatforms_required_iff_witness :
    (updatePlatforms exC1).cells = exC1.cells.map (fun c =>
      { c with required := exC1.platformFilterChecked &&
          (collectWantedPlatforms exC1.platformCheckboxes).contains c.tag }) :=
  updatePlatforms_required_iff exC1

/-- Witness for C4 at a concrete page state. -/
theorem updatePlatforms_marks_exclusive_witness :
    ((updatePlatforms exC3).rows.all (fun r => !(r.available && r.notAvailable))) = true :=
  updatePlatforms_marks_exclusive exC3

end Frameworks
